import Mathlib

set_option autoImplicit false

/-! Shallow embedding of the triple-buffered frame handoff implemented by the
`FrameCapture` class of `examples/video_callback/glfw_sample.cpp` and
`examples/video_callback/sdl_opengl.cpp`.  The two backends share identical
`getNextFrame`, `onSwap`, `onSetup` and `onCleanup` logic; they differ only in
`onUpdateOutput` (the GLFW backend additionally writes `out->orientation`).
GPU side effects (glGen/glDelete/glBind calls) are recorded as an explicit
command trace, and the GL driver's outputs (generated object names, the
framebuffer-completeness status) are inputs of the embedding. -/

/-- Values of `libvlc_video_orient_t` used by the sources. -/
inductive VideoOrient where
  | top_left
  | top_right
  | bottom_left
  | bottom_right
deriving DecidableEq

/-- Values of `libvlc_video_color_space_t` used by the sources. -/
inductive VideoColorspace where
  | AUTO
  | BT601
  | BT709
  | BT2020
deriving DecidableEq

/-- Values of `libvlc_video_color_primaries_t` used by the sources. -/
inductive VideoPrimaries where
  | UNDEF
  | BT601_625
  | BT709
  | BT2020
deriving DecidableEq

/-- Values of `libvlc_video_transfer_func_t` used by the sources. -/
inductive VideoTransferFunc where
  | UNDEF
  | LINEAR
  | SRGB
  | BT709
deriving DecidableEq

/-- OpenGL's `GL_RGBA` pixel-format constant. -/
def GL_RGBA : Nat := 0x1908

/-- The fields of `libvlc_video_render_cfg_t` read by `onUpdateOutput`. -/
structure RenderCfg where
  width : Nat
  height : Nat
deriving DecidableEq

/-- The fields of `libvlc_video_output_cfg_t` written by `onUpdateOutput`. -/
structure OutputCfg where
  opengl_format : Nat
  full_range : Bool
  colorspace : VideoColorspace
  primaries : VideoPrimaries
  transfer : VideoTransferFunc
  orientation : VideoOrient
deriving DecidableEq

/-- State of the `FrameCapture` class: the two `std::array<GLuint, 3>` resource
arrays, the three role indices (`uint32_t`, initialised to 0/1/2), the recorded
frame dimensions and the acquisition flag.  The mutex serialises `getNextFrame`
and `onSwap`; under that serialisation each critical section is one atomic step
on this state. -/
structure FrameCapture where
  fbos : Fin 3 → Nat
  textures : Fin 3 → Nat
  frame_render_id : Nat
  frame_swap_id : Nat
  frame_present_id : Nat
  frame_width : Nat
  frame_height : Nat
  frame_acquired : Bool

/-- Bounds-checked element access, modelling `std::array::at` (which throws on
an out-of-range index, here `none`). -/
def arrAt (a : Fin 3 → Nat) (i : Nat) : Option Nat :=
  if h : i < 3 then some (a ⟨i, h⟩) else none

/-- GL commands issued by the embedded member functions, recorded as a trace.
`setupSurface t w h f` stands for the loop body of `onUpdateOutput`: bind
texture `t`, allocate `w`-by-`h` RGBA storage for it, set its parameters, bind
framebuffer `f` and attach `t` to it. -/
inductive GLCmd where
  | logSizeChanged (w h : Nat)
  | genTextures (ts : List Nat)
  | genFramebuffers (fs : List Nat)
  | setupSurface (tex w h fbo : Nat)
  | bindTexture (t : Nat)
  | bindFramebuffer (f : Option Nat)
  | deleteTextures (ts : List Nat)
  | deleteFramebuffers (fs : List Nat)
deriving DecidableEq

/-- Embedding of `FrameCapture::getNextFrame` (identical in both backends):
under the mutex, if `frame_acquired_` then swap `frame_present_id_` and
`frame_swap_id_` and clear the flag; return `textures_.at(frame_present_id_)`. -/
def getNextFrame (s : FrameCapture) : FrameCapture × Option Nat :=
  let s' := if s.frame_acquired then
      { s with frame_present_id := s.frame_swap_id,
               frame_swap_id := s.frame_present_id,
               frame_acquired := false }
    else s
  (s', arrAt s'.textures s'.frame_present_id)

/-- Embedding of `FrameCapture::onSwap` (identical in both backends): under the
mutex, swap `frame_render_id_` and `frame_swap_id_`, bind the framebuffer
`fbos_.at(frame_render_id_)` and set `frame_acquired_`. -/
def onSwap (s : FrameCapture) : FrameCapture × GLCmd :=
  let s' := { s with frame_render_id := s.frame_swap_id,
                     frame_swap_id := s.frame_render_id,
                     frame_acquired := true }
  (s', GLCmd.bindFramebuffer (arrAt s'.fbos s'.frame_render_id))

/-- Embedding of `FrameCapture::onSetup` (identical in both backends): reset
the recorded dimensions to 0 and return `true`. -/
def onSetup (s : FrameCapture) : FrameCapture × Bool :=
  ({ s with frame_width := 0, frame_height := 0 }, true)

/-- Embedding of `FrameCapture::onCleanup` (identical in both backends): when
both recorded dimensions are positive, delete the three textures and the three
framebuffers; otherwise do nothing.  No member field is written, so only the
command trace is returned. -/
def onCleanup (s : FrameCapture) : List GLCmd :=
  if s.frame_width > 0 ∧ s.frame_height > 0 then
    [GLCmd.deleteTextures [s.textures 0, s.textures 1, s.textures 2],
     GLCmd.deleteFramebuffers [s.fbos 0, s.fbos 1, s.fbos 2]]
  else []

/-- Embedding of `FrameCapture::onUpdateOutput` from `glfw_sample.cpp`.
`newTex`/`newFbo` are the names returned by `glGenTextures`/`glGenFramebuffers`
and `fbComplete` is the driver's framebuffer-status answer; `none` models the
`exit(EXIT_FAILURE)` taken when the framebuffer is incomplete.  The function
logs when the requested dimensions differ from the recorded ones, always
generates three new textures and framebuffers, records the new dimensions,
sets up the three surfaces at those dimensions, binds the `frame_render_id_`
framebuffer and fills the output descriptor (including `orientation`). -/
def onUpdateOutput_glfw (cfg : RenderCfg) (newTex newFbo : Fin 3 → Nat)
    (fbComplete : Bool) (s : FrameCapture) (out : OutputCfg) :
    Option (FrameCapture × OutputCfg × Bool × List GLCmd) :=
  let logCmds : List GLCmd :=
    if s.frame_width ≠ cfg.width ∨ s.frame_height ≠ cfg.height then
      [GLCmd.logSizeChanged cfg.width cfg.height]
    else []
  let s' : FrameCapture :=
    { s with textures := newTex, fbos := newFbo,
             frame_width := cfg.width, frame_height := cfg.height }
  let setupCmds : List GLCmd :=
    [GLCmd.genTextures [newTex 0, newTex 1, newTex 2],
     GLCmd.genFramebuffers [newFbo 0, newFbo 1, newFbo 2],
     GLCmd.setupSurface (newTex 0) cfg.width cfg.height (newFbo 0),
     GLCmd.setupSurface (newTex 1) cfg.width cfg.height (newFbo 1),
     GLCmd.setupSurface (newTex 2) cfg.width cfg.height (newFbo 2),
     GLCmd.bindTexture 0]
  if fbComplete then
    some (s',
      { out with opengl_format := GL_RGBA,
                 full_range := true,
                 colorspace := VideoColorspace.BT709,
                 primaries := VideoPrimaries.BT709,
                 transfer := VideoTransferFunc.SRGB,
                 orientation := VideoOrient.top_left },
      true,
      logCmds ++ setupCmds ++
        [GLCmd.bindFramebuffer (arrAt s'.fbos s'.frame_render_id)])
  else none

/-- Embedding of `FrameCapture::onUpdateOutput` from `sdl_opengl.cpp`: same as
the GLFW variant, except that the source never writes `out->orientation`, so
that field of the descriptor keeps its incoming value. -/
def onUpdateOutput_sdl (cfg : RenderCfg) (newTex newFbo : Fin 3 → Nat)
    (fbComplete : Bool) (s : FrameCapture) (out : OutputCfg) :
    Option (FrameCapture × OutputCfg × Bool × List GLCmd) :=
  let logCmds : List GLCmd :=
    if s.frame_width ≠ cfg.width ∨ s.frame_height ≠ cfg.height then
      [GLCmd.logSizeChanged cfg.width cfg.height]
    else []
  let s' : FrameCapture :=
    { s with textures := newTex, fbos := newFbo,
             frame_width := cfg.width, frame_height := cfg.height }
  let setupCmds : List GLCmd :=
    [GLCmd.genTextures [newTex 0, newTex 1, newTex 2],
     GLCmd.genFramebuffers [newFbo 0, newFbo 1, newFbo 2],
     GLCmd.setupSurface (newTex 0) cfg.width cfg.height (newFbo 0),
     GLCmd.setupSurface (newTex 1) cfg.width cfg.height (newFbo 1),
     GLCmd.setupSurface (newTex 2) cfg.width cfg.height (newFbo 2),
     GLCmd.bindTexture 0]
  if fbComplete then
    some (s',
      { out with opengl_format := GL_RGBA,
                 full_range := true,
                 colorspace := VideoColorspace.BT709,
                 primaries := VideoPrimaries.BT709,
                 transfer := VideoTransferFunc.SRGB },
      true,
      logCmds ++ setupCmds ++
        [GLCmd.bindFramebuffer (arrAt s'.fbos s'.frame_render_id)])
  else none

/-- Projection: resulting `FrameCapture` state of an `onUpdateOutput` call. -/
def updResState (r : Option (FrameCapture × OutputCfg × Bool × List GLCmd)) :
    Option FrameCapture :=
  r.map Prod.fst

/-- Projection: resulting output descriptor of an `onUpdateOutput` call. -/
def updResOut (r : Option (FrameCapture × OutputCfg × Bool × List GLCmd)) :
    Option OutputCfg :=
  r.map fun t => t.2.1

/-- Projection: GL command trace of an `onUpdateOutput` call. -/
def updResCmds (r : Option (FrameCapture × OutputCfg × Bool × List GLCmd)) :
    List GLCmd :=
  match r with
  | some (_, _, _, c) => c
  | none => []

/-- Whether a command trace contains any `glDeleteTextures` or
`glDeleteFramebuffers` call. -/
def hasDeleteCmd (l : List GLCmd) : Bool :=
  l.any fun c =>
    match c with
    | GLCmd.deleteTextures _ => true
    | GLCmd.deleteFramebuffers _ => true
    | _ => false

/-- The two mutex-serialised operations on the shared triple-buffer state:
`acquire` is `getNextFrame` (display thread), `publish` is `onSwap` (decoder
thread). -/
inductive BufOp where
  | acquire
  | publish
deriving DecidableEq

/-- Apply one serialised operation to the state. -/
def applyOp (o : BufOp) (s : FrameCapture) : FrameCapture :=
  match o with
  | BufOp.acquire => (getNextFrame s).1
  | BufOp.publish => (onSwap s).1

/-- Run a sequence of serialised `acquire`/`publish` operations. -/
def runOps (ops : List BufOp) (s : FrameCapture) : FrameCapture :=
  ops.foldl (fun t o => applyOp o t) s

/-- A freshly constructed `FrameCapture` object: role indices 0/1/2,
dimensions 0, flag clear.  The resource arrays hold whatever the constructor
left there (`tex`/`fbo` parameters): zero-initialised in the SDL backend,
indeterminate in the GLFW backend. -/
def initState (tex fbo : Fin 3 → Nat) : FrameCapture :=
  { fbos := fbo, textures := tex,
    frame_render_id := 0, frame_swap_id := 1, frame_present_id := 2,
    frame_width := 0, frame_height := 0, frame_acquired := false }

/-- The SDL backend's freshly constructed state (`fbos_{}`, `textures_{}`
zero-initialise both arrays). -/
def initSDL : FrameCapture :=
  initState (fun _ => 0) (fun _ => 0)

/-- Role-index invariant: the three indices are below 3 and pairwise
distinct. -/
def RolesOk (s : FrameCapture) : Prop :=
  s.frame_render_id < 3 ∧ s.frame_swap_id < 3 ∧ s.frame_present_id < 3 ∧
    s.frame_render_id ≠ s.frame_swap_id ∧
    s.frame_swap_id ≠ s.frame_present_id ∧
    s.frame_render_id ≠ s.frame_present_id

instance (s : FrameCapture) : Decidable (RolesOk s) := by
  unfold RolesOk; infer_instance

/-- Models the decoder thread writing frame `f` into the surface currently
bound as the render target (the slot at `frame_render_id_`), between two
`onSwap` calls; `mem` maps each slot to the frame its texture holds. -/
def writeRender (mem : Fin 3 → Nat) (s : FrameCapture) (f : Nat) :
    Fin 3 → Nat :=
  fun i => if (i : Nat) = s.frame_render_id then f else mem i

/-- The frame held by slot `i`, with the same bounds check as `arrAt`. -/
def slotContent (mem : Fin 3 → Nat) (i : Nat) : Option Nat :=
  if h : i < 3 then some (mem ⟨i, h⟩) else none

/-- A sample incoming output descriptor, with none of the fields already at
the values `onUpdateOutput` writes. -/
def sampleOut : OutputCfg :=
  { opengl_format := 0, full_range := false,
    colorspace := VideoColorspace.AUTO, primaries := VideoPrimaries.UNDEF,
    transfer := VideoTransferFunc.LINEAR,
    orientation := VideoOrient.bottom_left }

/-! Helper lemmas about the serialised operations. -/

theorem runOps_nil (s : FrameCapture) : runOps [] s = s := rfl

theorem runOps_cons (o : BufOp) (ops : List BufOp) (s : FrameCapture) :
    runOps (o :: ops) s = runOps ops (applyOp o s) := rfl

theorem rolesOk_applyOp (o : BufOp) (s : FrameCapture) (h : RolesOk s) :
    RolesOk (applyOp o s) := by
  obtain ⟨h1, h2, h3, h4, h5, h6⟩ := h
  cases o with
  | acquire =>
      by_cases ha : s.frame_acquired = true <;>
        simp [applyOp, getNextFrame, ha, RolesOk] <;> omega
  | publish =>
      simp [applyOp, onSwap, RolesOk]
      omega

theorem rolesOk_runOps (ops : List BufOp) (s : FrameCapture) (h : RolesOk s) :
    RolesOk (runOps ops s) := by
  induction ops generalizing s with
  | nil => exact h
  | cons o rest ih =>
      rw [runOps_cons]
      exact ih (applyOp o s) (rolesOk_applyOp o s h)

theorem rolesOk_initState (tex fbo : Fin 3 → Nat) :
    RolesOk (initState tex fbo) := by
  refine ⟨?_, ?_, ?_, ?_, ?_, ?_⟩ <;> simp [initState]

theorem roles_set_eq (r w p : ℕ) (hr : r < 3) (hw : w < 3) (hp : p < 3)
    (hrw : r ≠ w) (hwp : w ≠ p) (hrp : r ≠ p) :
    ({r, w, p} : Finset ℕ) = {0, 1, 2} := by
  interval_cases r <;> interval_cases w <;> interval_cases p <;>
    first | omega | decide

/-- C1: in every state reachable by any sequence of `getNextFrame` (acquire)
and `onSwap` (publish) calls from the initial state, the three role indices
`frame_render_id_`, `frame_swap_id_`, `frame_present_id_` are pairwise
distinct and form a permutation of {0,1,2}. -/
theorem roles_always_permutation (tex fbo : Fin 3 → Nat) (ops : List BufOp) :
    let s := runOps ops (initState tex fbo)
    (s.frame_render_id ≠ s.frame_swap_id ∧
     s.frame_swap_id ≠ s.frame_present_id ∧
     s.frame_render_id ≠ s.frame_present_id) ∧
    ({s.frame_render_id, s.frame_swap_id, s.frame_present_id} : Finset ℕ) =
      {0, 1, 2} := by
  intro s
  obtain ⟨h1, h2, h3, h4, h5, h6⟩ :=
    rolesOk_runOps ops (initState tex fbo) (rolesOk_initState tex fbo)
  exact ⟨⟨h4, h5, h6⟩, roles_set_eq _ _ _ h1 h2 h3 h4 h5 h6⟩

/-- C2: for every interleaving of the mutex-serialised `onSwap` (publish) and
`getNextFrame` (acquire) steps, the value `getNextFrame` returns is the texture
of the present slot at the moment it returns, and that present index differs
from the render index current at that moment (which `getNextFrame` itself does
not change). -/
theorem acquired_present_ne_render (tex fbo : Fin 3 → Nat) (ops : List BufOp) :
    let s := runOps ops (initState tex fbo)
    (getNextFrame s).2 =
      arrAt (getNextFrame s).1.textures (getNextFrame s).1.frame_present_id ∧
    (getNextFrame s).1.frame_present_id ≠ (getNextFrame s).1.frame_render_id ∧
    (getNextFrame s).1.frame_render_id = s.frame_render_id := by
  intro s
  have hs : RolesOk s :=
    rolesOk_runOps ops (initState tex fbo) (rolesOk_initState tex fbo)
  have hs2 : RolesOk (getNextFrame s).1 := rolesOk_applyOp BufOp.acquire s hs
  refine ⟨rfl, fun e => hs2.2.2.2.2.2 e.symm, ?_⟩
  by_cases ha : s.frame_acquired = true <;> simp [getNextFrame, ha]

/-- C6: for every state, calling `getNextFrame` twice with no intervening
`onSwap` returns the same texture handle both times: after the first call the
acquisition flag is false, so the second call performs no index exchange and
returns the same present texture again (the whole call, state and value, is
idempotent). -/
theorem getNextFrame_idempotent (s : FrameCapture) :
    getNextFrame (getNextFrame s).1 = getNextFrame s ∧
    (getNextFrame s).1.frame_acquired = false := by
  by_cases ha : s.frame_acquired = true <;> simp [getNextFrame, ha]

/-- C9: the two operations act on disjoint role pairs: `getNextFrame` leaves
`frame_render_id_` (and the texture array) unchanged, only ever exchanging
`frame_swap_id_` and `frame_present_id_` (and only when the flag was set),
while `onSwap` leaves `frame_present_id_` unchanged, exchanging
`frame_render_id_` and `frame_swap_id_`. -/
theorem acquire_publish_disjoint_roles (s : FrameCapture) :
    (getNextFrame s).1.frame_render_id = s.frame_render_id ∧
    (getNextFrame s).1.textures = s.textures ∧
    (onSwap s).1.frame_present_id = s.frame_present_id ∧
    (onSwap s).1.frame_render_id = s.frame_swap_id ∧
    (onSwap s).1.frame_swap_id = s.frame_render_id ∧
    (s.frame_acquired = true →
      (getNextFrame s).1.frame_present_id = s.frame_swap_id ∧
      (getNextFrame s).1.frame_swap_id = s.frame_present_id) ∧
    (s.frame_acquired = false → (getNextFrame s).1 = s) := by
  by_cases ha : s.frame_acquired = true <;> simp [getNextFrame, onSwap, ha]

/-- C9 witness: on the freshly constructed SDL state the acquisition flag is
clear, so `getNextFrame` leaves the state untouched. -/
theorem acquire_publish_disjoint_roles_witness :
    (getNextFrame initSDL).1 = initSDL :=
  (acquire_publish_disjoint_roles initSDL).2.2.2.2.2.2 rfl

/-- C10: `onCleanup` deletes the three textures and three framebuffers exactly
when both recorded dimensions are strictly positive; with a zero dimension
(before any `onUpdateOutput`, or after `onSetup` reset the dimensions) it
issues no GL command at all. -/
theorem onCleanup_guarded (s : FrameCapture) :
    (s.frame_width = 0 ∨ s.frame_height = 0 → onCleanup s = []) ∧
    (s.frame_width > 0 → s.frame_height > 0 →
      onCleanup s =
        [GLCmd.deleteTextures [s.textures 0, s.textures 1, s.textures 2],
         GLCmd.deleteFramebuffers [s.fbos 0, s.fbos 1, s.fbos 2]]) ∧
    onCleanup (onSetup s).1 = [] := by
  refine ⟨?_, ?_, ?_⟩
  · intro h
    unfold onCleanup
    rw [if_neg]
    omega
  · intro h1 h2
    unfold onCleanup
    rw [if_pos ⟨h1, h2⟩]
  · simp [onCleanup, onSetup]

/-- C10 witness: the freshly constructed state has zero dimensions, so
`onCleanup` deletes nothing. -/
theorem onCleanup_guarded_witness : onCleanup initSDL = [] :=
  (onCleanup_guarded initSDL).1 (Or.inl rfl)

/-- C3 counterexample: after `onUpdateOutput` has stored the generated texture
names 7, 8, 9 (but before any `onSwap` has ever run), `getNextFrame` returns
the slot-2 texture name 9, not the invalid-handle sentinel 0. -/
theorem getNextFrame_before_swap_counterexample :
    (updResState (onUpdateOutput_glfw ⟨640, 480⟩ ![7, 8, 9] ![4, 5, 6] true
        initSDL sampleOut)).map (fun u => (getNextFrame u).2) =
      some (some 9) ∧ some (9 : Nat) ≠ some (0 : Nat) := by
  constructor
  · rfl
  · decide

/-- C3 amended: every `getNextFrame` call made before the first `onSwap`
returns the texture handle recorded in slot 2 (the initial present slot).
From the SDL backend's zero-initialised constructor state that is the
sentinel 0, for any number of repeated calls; but once `onUpdateOutput` has
stored the generated texture names, the call returns the generated slot-2
name (nonzero for real GL name sets) even though no frame has completed. -/
theorem getNextFrame_before_first_swap (n : Nat) (cfg : RenderCfg)
    (newTex newFbo : Fin 3 → Nat) (out : OutputCfg) :
    (getNextFrame (runOps (List.replicate n BufOp.acquire) initSDL)).2 =
      some 0 ∧
    (updResState (onUpdateOutput_glfw cfg newTex newFbo true initSDL out)).map
        (fun u => (getNextFrame u).2) = some (some (newTex 2)) := by
  constructor
  · have hrun : runOps (List.replicate n BufOp.acquire) initSDL = initSDL := by
      induction n with
      | zero => rfl
      | succ k ih =>
          rw [List.replicate_succ, runOps_cons]
          exact ih
    rw [hrun]
    rfl
  · rfl

/-- C4 counterexample: starting from the state reached by one `onSwap` (role
indices 1/0/2), a successful `onUpdateOutput` leaves `frame_render_id_` at 1
instead of resetting it to 0, and its GL trace contains no delete command, so
existing surfaces are not destroyed. -/
theorem onUpdateOutput_no_reset_counterexample :
    (updResState (onUpdateOutput_glfw ⟨640, 480⟩ ![7, 8, 9] ![4, 5, 6] true
        (runOps [BufOp.publish] initSDL) sampleOut)).map
        (fun u => u.frame_render_id) = some 1 ∧
    some (1 : Nat) ≠ some (0 : Nat) ∧
    hasDeleteCmd (updResCmds (onUpdateOutput_glfw ⟨640, 480⟩ ![7, 8, 9]
        ![4, 5, 6] true (runOps [BufOp.publish] initSDL) sampleOut)) =
      false := by
  refine ⟨rfl, by decide, rfl⟩

/-- C4 amended: every successful `onUpdateOutput` call stores three newly
generated texture and framebuffer names, sets each texture up at the given
dimensions, and records those dimensions; but it destroys no existing surface
(its GL trace has no delete command) and leaves the three role indices, and
everything else in the state, unchanged.  Both backends behave identically
here. -/
theorem onUpdateOutput_allocates (cfg : RenderCfg) (newTex newFbo : Fin 3 → Nat)
    (s : FrameCapture) (out : OutputCfg) :
    updResState (onUpdateOutput_glfw cfg newTex newFbo true s out) =
      some { s with textures := newTex, fbos := newFbo,
                    frame_width := cfg.width, frame_height := cfg.height } ∧
    updResState (onUpdateOutput_sdl cfg newTex newFbo true s out) =
      some { s with textures := newTex, fbos := newFbo,
                    frame_width := cfg.width, frame_height := cfg.height } ∧
    GLCmd.genTextures [newTex 0, newTex 1, newTex 2] ∈
      updResCmds (onUpdateOutput_glfw cfg newTex newFbo true s out) ∧
    GLCmd.genFramebuffers [newFbo 0, newFbo 1, newFbo 2] ∈
      updResCmds (onUpdateOutput_glfw cfg newTex newFbo true s out) ∧
    GLCmd.setupSurface (newTex 0) cfg.width cfg.height (newFbo 0) ∈
      updResCmds (onUpdateOutput_glfw cfg newTex newFbo true s out) ∧
    GLCmd.setupSurface (newTex 1) cfg.width cfg.height (newFbo 1) ∈
      updResCmds (onUpdateOutput_glfw cfg newTex newFbo true s out) ∧
    GLCmd.setupSurface (newTex 2) cfg.width cfg.height (newFbo 2) ∈
      updResCmds (onUpdateOutput_glfw cfg newTex newFbo true s out) ∧
    hasDeleteCmd (updResCmds (onUpdateOutput_glfw cfg newTex newFbo true s out)) =
      false := by
  by_cases hc : s.frame_width ≠ cfg.width ∨ s.frame_height ≠ cfg.height <;>
    simp [onUpdateOutput_glfw, onUpdateOutput_sdl, updResState, updResCmds,
      hasDeleteCmd, hc]

/-- The state reached from the fresh SDL state by one successful
`onUpdateOutput` at 640 by 480 with generated names 1/2/3 and 4/5/6; its
recorded dimensions are 640 and 480. -/
def s640 : FrameCapture :=
  (updResState (onUpdateOutput_glfw ⟨640, 480⟩ ![1, 2, 3] ![4, 5, 6] true
    initSDL sampleOut)).getD initSDL

/-- C5 counterexample: with the recorded dimensions already 640 by 480, a
second `onUpdateOutput` at exactly 640 by 480 still generates three new
textures (names 7, 8, 9 appear in a `glGenTextures` call of its GL trace), so
reallocation is not restricted to dimension changes. -/
theorem onUpdateOutput_realloc_counterexample :
    s640.frame_width = 640 ∧ s640.frame_height = 480 ∧
    GLCmd.genTextures [7, 8, 9] ∈
      updResCmds (onUpdateOutput_glfw ⟨640, 480⟩ ![7, 8, 9] ![10, 11, 12] true
        s640 sampleOut) := by
  decide

/-- C5 amended: the dimension comparison in `onUpdateOutput` only controls the
diagnostic size-changed message; even when the requested dimensions equal the
recorded ones (so no message is logged), the call still generates three new
textures and three new framebuffers. -/
theorem onUpdateOutput_always_reallocates (cfg : RenderCfg)
    (newTex newFbo : Fin 3 → Nat) (s : FrameCapture) (out : OutputCfg)
    (h : s.frame_width = cfg.width ∧ s.frame_height = cfg.height) :
    GLCmd.logSizeChanged cfg.width cfg.height ∉
      updResCmds (onUpdateOutput_glfw cfg newTex newFbo true s out) ∧
    GLCmd.genTextures [newTex 0, newTex 1, newTex 2] ∈
      updResCmds (onUpdateOutput_glfw cfg newTex newFbo true s out) ∧
    GLCmd.genFramebuffers [newFbo 0, newFbo 1, newFbo 2] ∈
      updResCmds (onUpdateOutput_glfw cfg newTex newFbo true s out) := by
  obtain ⟨h1, h2⟩ := h
  simp [onUpdateOutput_glfw, updResCmds, h1, h2]

/-- C5 witness: a second 640-by-480 negotiation on `s640` (whose recorded
dimensions are already 640 by 480) still emits a `glGenTextures` call. -/
theorem onUpdateOutput_always_reallocates_witness :
    GLCmd.genTextures [7, 8, 9] ∈
      updResCmds (onUpdateOutput_glfw ⟨640, 480⟩ ![7, 8, 9] ![10, 11, 12] true
        s640 sampleOut) :=
  (onUpdateOutput_always_reallocates ⟨640, 480⟩ ![7, 8, 9] ![10, 11, 12] s640
    sampleOut (by decide)).2.1

/-- C8 counterexample: the SDL backend's `onUpdateOutput` returns `true` yet
leaves `orientation` at its incoming value (here bottom-left), so it does not
populate the descriptor with the top-left orientation. -/
theorem onUpdateOutput_orientation_counterexample :
    (updResOut (onUpdateOutput_sdl ⟨640, 480⟩ ![1, 2, 3] ![4, 5, 6] true
        initSDL sampleOut)).map (fun o => o.orientation) =
      some VideoOrient.bottom_left ∧
    VideoOrient.bottom_left ≠ VideoOrient.top_left := by
  decide

/-- C8 amended: every `onUpdateOutput` call that returns true populates the
descriptor with RGBA format, full-range colour, BT.709 colorspace and
primaries and sRGB transfer; the GLFW backend additionally sets top-left
orientation, while the SDL backend leaves the orientation field at its
incoming value.  When the framebuffer is incomplete neither backend returns at
all (the process exits). -/
theorem onUpdateOutput_descriptor (cfg : RenderCfg) (newTex newFbo : Fin 3 → Nat)
    (s : FrameCapture) (out : OutputCfg) :
    updResOut (onUpdateOutput_glfw cfg newTex newFbo true s out) =
      some { opengl_format := GL_RGBA, full_range := true,
             colorspace := VideoColorspace.BT709,
             primaries := VideoPrimaries.BT709,
             transfer := VideoTransferFunc.SRGB,
             orientation := VideoOrient.top_left } ∧
    updResOut (onUpdateOutput_sdl cfg newTex newFbo true s out) =
      some { opengl_format := GL_RGBA, full_range := true,
             colorspace := VideoColorspace.BT709,
             primaries := VideoPrimaries.BT709,
             transfer := VideoTransferFunc.SRGB,
             orientation := out.orientation } ∧
    onUpdateOutput_glfw cfg newTex newFbo false s out = none ∧
    onUpdateOutput_sdl cfg newTex newFbo false s out = none := by
  refine ⟨rfl, rfl, rfl, rfl⟩

/-- Newest-wins property of the handoff, starting from state `s` with slot
contents `mem`: (a) writing frame `A` into the render slot, publishing,
acquiring, then writing frame `B` and publishing again makes the first acquire
expose the slot holding `A` (returning that slot's texture handle) and the
next acquire expose the slot holding `B`; (b) publishing `A` and then `B` with
no intervening acquire makes the next acquire expose the slot holding `B`
(`A` is skipped). -/
def NewestWins (s : FrameCapture) (mem : Fin 3 → Nat) (A B : Nat) : Prop :=
  (let m1 := writeRender mem s A
   let s1 := (onSwap s).1
   let s2 := (getNextFrame s1).1
   slotContent m1 s2.frame_present_id = some A ∧
   (getNextFrame s1).2 = arrAt s1.textures s2.frame_present_id ∧
   (let m2 := writeRender m1 s2 B
    let s3 := (onSwap s2).1
    slotContent m2 (getNextFrame s3).1.frame_present_id = some B)) ∧
  (let m1 := writeRender mem s A
   let s1 := (onSwap s).1
   let m2 := writeRender m1 s1 B
   let s2 := (onSwap s1).1
   slotContent m2 (getNextFrame s2).1.frame_present_id = some B)

/-- C7: from any state whose role indices satisfy the ring invariant (the
freshly allocated ring included), the publish/acquire/publish/acquire sequence
yields frame `A` then frame `B`, and two publishes with no intervening acquire
yield frame `B` alone: the older frame is skipped and the acquire exposes the
most recently published frame. -/
theorem getNextFrame_newest_wins (s : FrameCapture) (mem : Fin 3 → Nat)
    (A B : Nat) (h : RolesOk s) : NewestWins s mem A B := by
  obtain ⟨h1, h2, h3, h4, h5, h6⟩ := h
  refine ⟨⟨?_, rfl, ?_⟩, ?_⟩ <;>
    simp [onSwap, getNextFrame, writeRender, slotContent, arrAt, h1, h2]

/-- C7 witness: the newest-wins property at the freshly constructed state with
frames 10 and 20. -/
theorem getNextFrame_newest_wins_witness :
    NewestWins initSDL (fun _ => 0) 10 20 :=
  getNextFrame_newest_wins initSDL (fun _ => 0) 10 20 (by decide)
